import Mathlib

/-!
Verification development for the Hive multi-persona discussion system.

The Python sources (`src/termination.py`, `src/submind.py`, `src/api_client.py`,
`src/conversation.py`, `src/conversation_stream.py`) are shallowly embedded below:
dictionaries become structures, mutable objects become explicit state passing,
exceptions become `Except`, the unbounded round loop becomes a fuel-indexed
recursion that returns `none` when the fuel runs out before the loop halts.
Python `float` configuration values are embedded as rationals.  Timestamps
(`datetime.now().isoformat()`) never influence control flow, so the clock is
modelled as a fixed string parameter `ts`.
-/

namespace Hive

/-! Character-list primitives mirroring the Python `str` operations used by
the sources.  All of the repository's string processing is ASCII. -/

/-- Python `needle in hay` (substring containment over characters). -/
def containsSub (needle : List Char) : List Char → Bool
  | [] => needle.isEmpty
  | c :: t => needle.isPrefixOf (c :: t) || containsSub needle t

/-- Python `str.lower` (ASCII case folding, which is all the sources use). -/
def lowerList (cs : List Char) : List Char := cs.map Char.toLower

/-- Python `str.strip`: drop leading and trailing whitespace. -/
def stripList (cs : List Char) : List Char :=
  ((cs.dropWhile Char.isWhitespace).reverse.dropWhile Char.isWhitespace).reverse

/-- `str.strip` lifted to `String`. -/
def strStrip (s : String) : String := String.mk (stripList s.data)

/-- `str.lower` lifted to `String`. -/
def strLower (s : String) : String := String.mk (lowerList s.data)

/-- Python `needle in hay` lifted to `String`. -/
def strContains (hay needle : String) : Bool := containsSub needle.data hay.data

/-! Data model.  A transcript entry is the message dictionary built in
`conversation.py` / `submind.py`: `{speaker, content, timestamp, round, role}`
plus the optional `model` tag present only on persona messages. -/

deriving instance DecidableEq for Except

/-- One utterance of the transcript (the Python message dict). -/
structure Message where
  speaker : String
  content : String
  timestamp : String
  round : Nat
  role : String
  model : Option String := none
deriving DecidableEq, Repr

/-! `src/termination.py` — `TerminationDetector`. -/

/-- `TerminationDetector.__init__` configuration.  `sequence_matcher_ratio`
stands for `difflib.SequenceMatcher(None, a, b).ratio()`, an external-library
pure function the detector consults; no claim depends on its values, so it is
carried as an opaque parameter of the detector instance. -/
structure TerminationDetector where
  max_rounds : Nat := 3
  detect_consensus : Bool := true
  consensus_threshold : ℚ := 7/10
  minimum_responses_per_submind : Nat := 1
  sequence_matcher_ratio : String → String → ℚ

/-- `self.completion_keywords` from `TerminationDetector.__init__`. -/
def completion_keywords : List String :=
  ["in conclusion", "to summarize", "in summary", "overall",
   "final thoughts", "to wrap up", "all things considered",
   "taking everything into account"]

/-- `self.consensus_keywords` from `TerminationDetector.__init__`. -/
def consensus_keywords : List String :=
  ["i agree", "agreed", "consensus", "we all",
   "everyone agrees", "we're aligned", "common ground", "same page"]

/-- Speakers skipped when counting responses (`["User", "System", "Unknown"]`). -/
def isCountedSpeaker (s : String) : Bool :=
  !(s == "User" || s == "System" || s == "Unknown")

/-- The messages that contribute to `response_counts` in
`_check_minimum_responses` (everything except User/System/Unknown). -/
def countedMessages (history : List Message) : List Message :=
  history.filter (fun m => isCountedSpeaker m.speaker)

/-- `response_counts[name]` (0 when the name is absent from the dict). -/
def response_count (history : List Message) (name : String) : Nat :=
  ((countedMessages history).filter (fun m => m.speaker == name)).length

/-- `TerminationDetector._check_minimum_responses`.  The dict membership test
`name not in response_counts` is `response_count history name = 0`. -/
def TerminationDetector.check_minimum_responses (td : TerminationDetector)
    (history : List Message) (expected_subminds : List String) : Bool :=
  if (countedMessages history).isEmpty then
    false
  else if !expected_subminds.isEmpty then
    expected_subminds.all fun n =>
      decide (0 < response_count history n) &&
      decide (td.minimum_responses_per_submind ≤ response_count history n)
  else
    (countedMessages history).all fun m =>
      decide (td.minimum_responses_per_submind ≤ response_count history m.speaker)

/-- Python `history[-min(5, len(history)):]` — the trailing window the
completion and consensus scans inspect. -/
def recent_messages (history : List Message) : List Message :=
  history.drop (history.length - min 5 history.length)

/-- `TerminationDetector._detect_completion_signals`. -/
def detect_completion_signals (history : List Message) : Bool :=
  if history.isEmpty then false
  else (recent_messages history).any fun m =>
    completion_keywords.any fun kw => containsSub kw.data (lowerList m.content.data)

/-- `TerminationDetector._detect_consensus`. -/
def detect_consensus_scan (history : List Message) : Bool :=
  if history.length < 3 then false
  else
    2 ≤ ((recent_messages history).filter fun m =>
      consensus_keywords.any fun kw => containsSub kw.data (lowerList m.content.data)).length

/-- `TerminationDetector._text_similarity`: the SequenceMatcher ratio of the
case-folded texts. -/
def TerminationDetector.text_similarity (td : TerminationDetector) (t1 t2 : String) : ℚ :=
  td.sequence_matcher_ratio (strLower t1) (strLower t2)

/-- Distinct speakers of the history in order of first appearance
(the keys of `messages_by_speaker` in `_detect_repetition`). -/
def speakersOf (history : List Message) : List String :=
  history.foldl (fun acc m => if acc.contains m.speaker then acc else acc ++ [m.speaker]) []

/-- `messages_by_speaker[name]` in `_detect_repetition`. -/
def messagesBySpeaker (history : List Message) (name : String) : List String :=
  (history.filter fun m => m.speaker == name).map (·.content)

/-- Body of the per-speaker loop of `_detect_repetition`: a speaker with at
least two messages is repetitive when their last message scores at least
`consensus_threshold` against some earlier message of theirs. -/
def TerminationDetector.speakerIsRepetitive (td : TerminationDetector)
    (msgs : List String) : Bool :=
  if msgs.length < 2 then false
  else match msgs.getLast? with
    | none => false
    | some last => msgs.dropLast.any fun prev =>
        decide (td.consensus_threshold ≤ td.text_similarity last prev)

/-- `TerminationDetector._detect_repetition`. -/
def TerminationDetector.detect_repetition (td : TerminationDetector)
    (history : List Message) : Bool :=
  if history.length < 6 then false
  else
    2 ≤ ((speakersOf history).filter fun name =>
      td.speakerIsRepetitive (messagesBySpeaker history name)).length

/-- `TerminationDetector.should_terminate`: the fixed rule order — minimum
participation gate, hard round cap, detection switch, completion scan,
consensus scan, repetition scan. -/
def TerminationDetector.should_terminate (td : TerminationDetector)
    (conversation_history : List Message) (current_round : Nat)
    (expected_subminds : List String) : Bool × String :=
  if !(td.check_minimum_responses conversation_history expected_subminds) then
    (false, "")
  else if td.max_rounds ≤ current_round then
    (true, "Maximum rounds (" ++ toString td.max_rounds ++ ") reached")
  else if !td.detect_consensus then
    (false, "")
  else if detect_completion_signals conversation_history then
    (true, "Completion signals detected in discussion")
  else if detect_consensus_scan conversation_history then
    (true, "Consensus reached among subminds")
  else if decide (1 < current_round) && td.detect_repetition conversation_history then
    (true, "Discussion becoming repetitive")
  else
    (false, "")

/-! `src/api_client.py` — response post-processing of
`OpenRouterClient.generate_response`.  The remote call itself is an external
capability; the mandatory cleanup applied to its raw text is embedded here. -/

/-- Python regex `\w` on the repository's ASCII content. -/
def isWordChar (c : Char) : Bool := c.isAlphanum || c == '_'

/-- Python regex `\s` (ASCII whitespace class). -/
def isPyWhitespace (c : Char) : Bool :=
  c == ' ' || c == '\t' || c == '\n' || c == '\r' || c == '\x0b' || c == '\x0c'

/-- `re.sub(r'\[/?INST\]', '', content)`: a single left-to-right scan removing
each non-overlapping `[INST]` / `[/INST]` occurrence and resuming after it. -/
def removeInstTokens : List Char → List Char
  | '[' :: 'I' :: 'N' :: 'S' :: 'T' :: ']' :: rest => removeInstTokens rest
  | '[' :: '/' :: 'I' :: 'N' :: 'S' :: 'T' :: ']' :: rest => removeInstTokens rest
  | c :: rest => c :: removeInstTokens rest
  | [] => []

/-- `content.split(marker)[0]` for a non-empty marker: the text before the
first occurrence of the marker (the whole text when the marker is absent). -/
def takeBeforeMarker (marker : List Char) : List Char → List Char
  | [] => []
  | c :: rest =>
    if marker.isPrefixOf (c :: rest) then []
    else c :: takeBeforeMarker marker rest

/-- `re.sub(r'^\[?\w+\]?:\s*', '', content)`.  The anchored pattern is
deterministic: `\w+` is a maximal word run (no useful backtracking, since `]`
and `:` are not word characters), `\[?`/`\]?` consume a bracket exactly when
the rest of the pattern still matches.  When the pattern does not match, the
input is returned unchanged. -/
def dropLeadingSpeakerTag (cs : List Char) : List Char :=
  let body := match cs with
    | '[' :: rest => rest
    | _ => cs
  let w := body.takeWhile isWordChar
  let rest := body.dropWhile isWordChar
  if w.isEmpty then cs
  else match rest with
    | ']' :: ':' :: r => r.dropWhile isPyWhitespace
    | ':' :: r => r.dropWhile isPyWhitespace
    | _ => cs

/-- The cleanup pipeline of `OpenRouterClient.generate_response`: strip; if an
end-of-instruction marker occurs, truncate at its first occurrence and strip;
remove stray instruction tokens and strip; drop one leading speaker tag. -/
def clean_response (raw : String) : String :=
  let content := stripList raw.data
  let content :=
    if containsSub ("[/INST]".data) content then
      stripList (takeBeforeMarker ("[/INST]".data) content)
    else content
  let content := stripList (removeInstTokens content)
  String.mk (dropLeadingSpeakerTag content)

/-! `src/submind.py` — `Submind`. -/

/-- One `{role, content}` entry of the request built for the backend. -/
structure ChatMsg where
  role : String
  content : String
deriving DecidableEq, Repr

/-- Failure classification of one backend call (`RateLimitError` versus any
other exception raised by `api_client.generate_response`). -/
inductive BackendFailure where
  | rateLimit (msg : String)
  | failure (msg : String)
deriving DecidableEq, Repr

/-- The backend adapter as the submind sees it: a model id and a message list
either produce text or raise a classified failure. -/
abbrev Backend := String → List ChatMsg → Except BackendFailure String

/-- A persona: the immutable configuration of `Submind.__init__` plus the two
mutable counters `current_model` and `response_count`. -/
structure Submind where
  name : String
  role : String
  models : List String
  temperature : ℚ := 7/10
  max_tokens : Nat := 500
  color : String := "white"
  system_prompt : String
  current_model : String
  response_count : Nat := 0
deriving DecidableEq, Repr

/-- Loop body of the history walk in `Submind.generate_response`: the
accumulator is `(messages, system_message_added)`. -/
def buildStep (s : Submind) (acc : List ChatMsg × Bool) (msg : Message) :
    List ChatMsg × Bool :=
  let (msgs, system_message_added) := acc
  if msg.speaker == s.name then
    (msgs ++ [⟨"assistant", msg.content⟩], system_message_added)
  else if msg.speaker == "User" then
    if !system_message_added then
      (msgs ++ [⟨"user", s.system_prompt ++ "\n\n" ++ msg.content⟩], true)
    else
      (msgs ++ [⟨"user", msg.content⟩], system_message_added)
  else
    let formatted_content := "[" ++ msg.speaker ++ "]: " ++ msg.content
    if !system_message_added then
      (msgs ++ [⟨"user", s.system_prompt ++ "\n\n" ++ formatted_content⟩], true)
    else
      (msgs ++ [⟨"user", formatted_content⟩], system_message_added)

/-- Context building of `Submind.generate_response`: walk the history, then
insert the system prompt at position 0 when the walk never injected it. -/
def Submind.build_messages (s : Submind) (conversation_history : List Message) :
    List ChatMsg :=
  let (msgs, system_message_added) :=
    conversation_history.foldl (buildStep s) ([], false)
  if !system_message_added then ⟨"user", s.system_prompt⟩ :: msgs else msgs

/-- The two terminal failures of `Submind.generate_response` (both raised as
plain `Exception`s in Python; the embedded constructor records which raise
site produced the message). -/
inductive SubmindError where
  | backendError (msg : String)
  | allModelsExhausted (msg : String)
deriving DecidableEq, Repr

/-- `str(e)` of a `Submind.generate_response` failure. -/
def SubmindError.message : SubmindError → String
  | .backendError m => m
  | .allModelsExhausted m => m

/-- The model-fallback loop of `Submind.generate_response`: models are tried
in list order; a rate limit records the error and moves on to the next model;
any other failure aborts at once; running out of models raises the
all-models-exhausted error wrapping the last rate-limit message. -/
def tryModels (s : Submind) (backend : Backend) (messages : List ChatMsg) :
    List String → Option String → Except SubmindError (String × String)
  | [], last_error =>
      .error (.allModelsExhausted
        ("All models exhausted for " ++ s.name ++ ". Last error: " ++ last_error.getD "None"))
  | model :: rest, _ =>
      match backend model messages with
      | .ok response_content => .ok (model, response_content)
      | .error (.rateLimit e) => tryModels s backend messages rest (some e)
      | .error (.failure e) =>
          .error (.backendError ("Failed to generate response for " ++ s.name ++ ": " ++ e))

/-- `Submind.generate_response`: build the context, run the fallback loop, and
on success update `current_model`, bump `response_count`, and return the
message dict (whose `round` field is the bumped `response_count`). -/
def Submind.generate_response (s : Submind) (backend : Backend)
    (conversation_history : List Message) (ts : String) :
    Except SubmindError (Message × Submind) :=
  let messages := s.build_messages conversation_history
  match tryModels s backend messages s.models none with
  | .error e => .error e
  | .ok (model, response_content) =>
      .ok ({ speaker := s.name, content := response_content, timestamp := ts,
             round := s.response_count + 1, model := some model, role := s.role },
           { s with current_model := model, response_count := s.response_count + 1 })

/-! `src/conversation.py` — the batch orchestrator `Conversation`.  The
`time.sleep` pacing between batch turns has no observable effect on the
returned transcript and is omitted here; the streaming embedding below records
sleeps explicitly because the streaming claims mention them. -/

/-- Shared mutable state of `Conversation` / `StreamingConversation` (the two
Python classes carry exactly the same fields).  `start_time`/`end_time` are
wall-clock bookkeeping and are not modelled. -/
structure Conversation where
  subminds : List Submind
  termination_detector : TerminationDetector
  delay_between_subminds : ℚ := 0
  history : List Message := []
  current_round : Nat := 0
  user_prompt : Option String := none

/-- The seed message appended by `start` / `stream_conversation`. -/
def userMessage (prompt ts : String) : Message :=
  { speaker := "User", content := prompt, timestamp := ts, round := 0, role := "user" }

/-- The synthetic `System` message appended when the detector fires. -/
def terminationMessage (reason : String) (round : Nat) (ts : String) : Message :=
  { speaker := "System", content := "Discussion terminated: " ++ reason,
    timestamp := ts, round := round, role := "system" }

/-- The inner `for submind in self.subminds` loop of
`Conversation._run_discussion`: each submind responds in sequence and its
message is appended immediately, so later subminds in the same round see
earlier ones' output.  Returns the updated subminds and the appended
messages; a failure propagates (batch mode aborts). -/
def runTurns (backend : Backend) (ts : String) :
    List Submind → List Message → Except SubmindError (List Submind × List Message)
  | [], _ => .ok ([], [])
  | s :: rest, history =>
    match s.generate_response backend history ts with
    | .error e => .error e
    | .ok (message, s') =>
      match runTurns backend ts rest (history ++ [message]) with
      | .error e => .error e
      | .ok (rest', msgs) => .ok (s' :: rest', message :: msgs)

/-- `Conversation._run_discussion`: the unbounded `while True` loop, indexed
by fuel; `.ok none` means the loop had not halted within `fuel` iterations. -/
def runDiscussion (backend : Backend) (ts : String) :
    Nat → Conversation → Except SubmindError (Option Conversation)
  | 0, _ => .ok none
  | fuel + 1, c =>
    let round := c.current_round + 1
    match runTurns backend ts c.subminds c.history with
    | .error e => .error e
    | .ok (subminds', msgs) =>
      let history' := c.history ++ msgs
      let expected_subminds := subminds'.map (·.name)
      match c.termination_detector.should_terminate history' round expected_subminds with
      | (true, reason) =>
          .ok (some { c with
                subminds := subminds',
                history := history' ++ [terminationMessage reason round ts],
                current_round := round })
      | (false, _) =>
          runDiscussion backend ts fuel
            { c with subminds := subminds', history := history', current_round := round }

/-- The failures `Conversation.start` can raise: the `ValueError` guarding
reuse without `reset()`, or a propagated submind failure. -/
inductive StartError where
  | alreadyStarted
  | submindFailure (e : SubmindError)
deriving DecidableEq, Repr

/-- `Conversation.start`: refuse a non-empty transcript, seed the round-0 user
message, then run the discussion loop. -/
def Conversation.start (c : Conversation) (backend : Backend) (ts : String)
    (fuel : Nat) (user_prompt : String) : Except StartError (Option Conversation) :=
  if !c.history.isEmpty then .error .alreadyStarted
  else
    let c := { c with
          user_prompt := some user_prompt,
          history := [userMessage user_prompt ts] }
    match runDiscussion backend ts fuel c with
    | .error e => .error (.submindFailure e)
    | .ok r => .ok r

/-- The round-stamping turn loop described by the spec sentence "every persona
message's `round` equals the orchestrator's discussion round counter at time
of generation": identical to `runTurns` except that the orchestrator overrides
each appended message's `round` with the current discussion round. -/
def runTurnsRoundStamped (backend : Backend) (ts : String) (round : Nat) :
    List Submind → List Message → Except SubmindError (List Submind × List Message)
  | [], _ => .ok ([], [])
  | s :: rest, history =>
    match s.generate_response backend history ts with
    | .error e => .error e
    | .ok (message, s') =>
      let message := { message with round := round }
      match runTurnsRoundStamped backend ts round rest (history ++ [message]) with
      | .error e => .error e
      | .ok (rest', msgs) => .ok (s' :: rest', message :: msgs)

/-- The discussion loop over the round-stamping turn loop (the spec-side
description against which `runDiscussion` is compared). -/
def runDiscussionRoundStamped (backend : Backend) (ts : String) :
    Nat → Conversation → Except SubmindError (Option Conversation)
  | 0, _ => .ok none
  | fuel + 1, c =>
    let round := c.current_round + 1
    match runTurnsRoundStamped backend ts round c.subminds c.history with
    | .error e => .error e
    | .ok (subminds', msgs) =>
      let history' := c.history ++ msgs
      let expected_subminds := subminds'.map (·.name)
      match c.termination_detector.should_terminate history' round expected_subminds with
      | (true, reason) =>
          .ok (some { c with
                subminds := subminds',
                history := history' ++ [terminationMessage reason round ts],
                current_round := round })
      | (false, _) =>
          runDiscussionRoundStamped backend ts fuel
            { c with subminds := subminds', history := history', current_round := round }

/-! `src/conversation_stream.py` — the streaming orchestrator.  The generator
is embedded as a function returning the ordered list of its observable
actions: yielded events and `time.sleep` pacing calls. -/

/-- The event dictionaries yielded by `StreamingConversation`.  The `complete`
event carries the final history (its summary is derived data). -/
inductive StreamEvent where
  | start (timestamp : String)
  | user_message (message : Message)
  | round_start (round : Nat)
  | submind_start (submind : String) (round : Nat)
  | submind_response (message : Message)
  | errorEvent (submind : String) (error : String)
  | round_complete (round : Nat)
  | termination (message : Message) (reason : String)
  | complete (history : List Message)
deriving DecidableEq, Repr

/-- One observable action of the streaming generator. -/
inductive StreamAction where
  | emit (event : StreamEvent)
  | sleep (seconds : ℚ)
deriving DecidableEq, Repr

/-- `if self.delay_between_subminds > 0: time.sleep(...)`. -/
def sleepActions (d : ℚ) : List StreamAction :=
  if 0 < d then [.sleep d] else []

/-- The inner persona loop of `StreamingConversation._stream_discussion`: a
successful turn appends its message and emits it; a raising turn emits an
error event instead, leaves the history and the submind untouched, and the
loop continues — in both cases the pacing sleep follows. -/
def streamTurns (backend : Backend) (ts : String) (d : ℚ) (round : Nat) :
    List Submind → List Message → List StreamAction × List Submind × List Message
  | [], history => ([], [], history)
  | s :: rest, history =>
    let startAct := StreamAction.emit (.submind_start s.name round)
    match s.generate_response backend history ts with
    | .ok (message, s') =>
      let (acts, subs, hist) := streamTurns backend ts d round rest (history ++ [message])
      (startAct :: .emit (.submind_response message) :: (sleepActions d ++ acts),
       s' :: subs, hist)
    | .error e =>
      let (acts, subs, hist) := streamTurns backend ts d round rest history
      (startAct :: .emit (.errorEvent s.name e.message) :: (sleepActions d ++ acts),
       s :: subs, hist)

/-- `StreamingConversation._stream_discussion`: the fuel-indexed round loop;
`none` in the second component means the fuel ran out before termination. -/
def streamDiscussion (backend : Backend) (ts : String) :
    Nat → Conversation → List StreamAction × Option Conversation
  | 0, _ => ([], none)
  | fuel + 1, c =>
    let round := c.current_round + 1
    let (acts, subminds', history') :=
      streamTurns backend ts c.delay_between_subminds round c.subminds c.history
    let roundActs :=
      StreamAction.emit (.round_start round) :: acts ++ [.emit (.round_complete round)]
    let expected_subminds := subminds'.map (·.name)
    match c.termination_detector.should_terminate history' round expected_subminds with
    | (true, reason) =>
      let tmsg := terminationMessage reason round ts
      (roundActs ++ [.emit (.termination tmsg reason)],
       some { c with
          subminds := subminds',
          history := history' ++ [tmsg],
          current_round := round })
    | (false, _) =>
      let (acts', r) := streamDiscussion backend ts fuel
        { c with subminds := subminds', history := history', current_round := round }
      (roundActs ++ acts', r)

/-- `StreamingConversation.stream_conversation`: emit the start event, append
the user message to the existing history (there is no already-started guard in
this variant), emit it, run the round loop, and emit the completion event. -/
def Conversation.stream_conversation (c : Conversation) (backend : Backend)
    (ts : String) (fuel : Nat) (user_prompt : String) :
    List StreamAction × Option Conversation :=
  let user_msg := userMessage user_prompt ts
  let c := { c with
        user_prompt := some user_prompt,
        history := c.history ++ [user_msg] }
  let (acts, r) := streamDiscussion backend ts fuel c
  let actsPre := [StreamAction.emit (.start ts), .emit (.user_message user_msg)]
  match r with
  | none => (actsPre ++ acts, none)
  | some c' => (actsPre ++ acts ++ [.emit (.complete c'.history)], some c')

/-! Projections used to state results about finished runs, and concrete
fixture instances used to witness the theorems below. -/

/-- The final round counter of a batch run that halted normally. -/
def finalRound : Except StartError (Option Conversation) → Option Nat
  | .ok (some c) => some c.current_round
  | _ => none

/-- The final transcript of a batch run that halted normally. -/
def finalHistory : Except StartError (Option Conversation) → Option (List Message)
  | .ok (some c) => some c.history
  | _ => none

/-- The final transcript of a streaming run that halted normally. -/
def streamFinalHistory : List StreamAction × Option Conversation → Option (List Message)
  | (_, some c) => some c.history
  | (_, none) => none

/-- A stand-in similarity function for fixture detectors (never consulted on
the paths the claims exercise). -/
def zeroRatio : String → String → ℚ := fun _ _ => 0

/-- A backend that always succeeds. -/
def okBackend : Backend := fun _ _ => .ok "fine"

/-- A fixture persona. -/
def mkPersona (n : String) : Submind :=
  { name := n, role := "analytical", models := ["model-a"],
    system_prompt := "System prompt for " ++ n, current_model := "model-a" }

/-- A fixture persona message. -/
def personaMsg (n content : String) (r : Nat) : Message :=
  { speaker := n, content := content, timestamp := "t", round := r, role := "analytical" }

/-- Fixture detector with default-style settings (cap 3, detection on). -/
def fixtureDetector : TerminationDetector :=
  { max_rounds := 3, detect_consensus := true, consensus_threshold := 0,
    minimum_responses_per_submind := 1, sequence_matcher_ratio := zeroRatio }

/-- Fixture history in which persona "Beta" has not spoken yet. -/
def gateWitnessHistory : List Message :=
  [userMessage "p" "t", personaMsg "Alpha" "first thoughts" 1]

/-- Fixture history whose round-0 user prompt contains the completion keyword
"overall" and sits inside the five-message scan window. -/
def promptKeywordHistory : List Message :=
  [userMessage "Overall, what should we do?" "t",
   personaMsg "Alpha" "We could wait." 1,
   personaMsg "Beta" "We could act." 1]

/-- Detector for the C1 counterexample: the participation minimum (2) exceeds
the round cap (1). -/
def c1Detector : TerminationDetector :=
  { max_rounds := 1, detect_consensus := false, consensus_threshold := 0,
    minimum_responses_per_submind := 2, sequence_matcher_ratio := zeroRatio }

/-- Conversation for the C1 counterexample. -/
def c1Conversation : Conversation :=
  { subminds := [mkPersona "Alpha", mkPersona "Beta"],
    termination_detector := c1Detector }

/-- Detector of the C3 scenario: cap 2, consensus detection off, minimum 1. -/
def scenarioDetector : TerminationDetector :=
  { max_rounds := 2, detect_consensus := false, consensus_threshold := 0,
    minimum_responses_per_submind := 1, sequence_matcher_ratio := zeroRatio }

/-- Conversation of the C3 scenario: three personas. -/
def scenarioConversation : Conversation :=
  { subminds := [mkPersona "Analytical", mkPersona "Creative", mkPersona "Strategic"],
    termination_detector := scenarioDetector }

/-- Detector that stops after one round (used by the streaming fixtures). -/
def oneRoundDetector : TerminationDetector :=
  { max_rounds := 1, detect_consensus := false, consensus_threshold := 0,
    minimum_responses_per_submind := 1, sequence_matcher_ratio := zeroRatio }

/-- A streaming conversation whose transcript is already non-empty. -/
def streamGuardConversation : Conversation :=
  { subminds := [mkPersona "Alpha", mkPersona "Beta"],
    termination_detector := oneRoundDetector,
    history := [userMessage "first prompt" "t"] }

/-- Backend that rate-limits "model-a" and answers on "model-b". -/
def fallbackBackend : Backend := fun model _ =>
  if model = "model-a" then .error (.rateLimit "429 too many requests")
  else .ok "fallback answer"

/-- Backend whose first model fails with a non-rate-limit error. -/
def failingBackend : Backend := fun model _ =>
  if model = "model-a" then .error (.failure "boom") else .ok "unreachable answer"

/-- Backend that rate-limits every model. -/
def rateLimitedBackend : Backend := fun _ _ => .error (.rateLimit "quota hit")

/-- A two-model fixture persona. -/
def twoModelPersona : Submind :=
  { name := "Alpha", role := "analytical", models := ["model-a", "model-b"],
    system_prompt := "System prompt for Alpha", current_model := "model-a" }

/-! Helper lemmas about the termination detector. -/

/-- A member of `expected_subminds` that is absent or under the minimum makes
the participation gate fail. -/
theorem gate_fails_of_under_count (td : TerminationDetector) (history : List Message)
    (expected : List String) (n : String) (hn : n ∈ expected)
    (hcount : response_count history n = 0 ∨
      response_count history n < td.minimum_responses_per_submind) :
    td.check_minimum_responses history expected = false := by
  unfold TerminationDetector.check_minimum_responses
  cases hemp : (countedMessages history).isEmpty with
  | true => simp [hemp]
  | false =>
    have hne : expected.isEmpty = false := by
      cases expected with
      | nil => simp at hn
      | cons a l => rfl
    simp only [hemp, hne, Bool.not_false, if_true, if_false, Bool.false_eq_true]
    rw [Bool.eq_false_iff]
    intro hall
    rw [List.all_eq_true] at hall
    have h2 := hall n hn
    simp only [Bool.and_eq_true, decide_eq_true_eq] at h2
    rcases hcount with h0 | hlt
    · omega
    · omega

/-- When the gate fails, `should_terminate` returns `(false, "")`. -/
theorem should_terminate_of_gate_failure (td : TerminationDetector)
    (history : List Message) (current_round : Nat) (expected : List String)
    (hck : td.check_minimum_responses history expected = false) :
    td.should_terminate history current_round expected = (false, "") := by
  unfold TerminationDetector.should_terminate
  simp [hck]

/-- C2: if `expectedNames` contains a name with zero counted responses (or
fewer than `minimumResponsesPerSubmind`), `shouldTerminate` returns
`(false, "")` even when `currentRound` has reached `maxRounds`: the
minimum-participation gate overrides every later rule. -/
theorem minimum_participation_gate_dominates (td : TerminationDetector)
    (history : List Message) (current_round : Nat) (expected : List String)
    (n : String) (hn : n ∈ expected)
    (hcount : response_count history n = 0 ∨
      response_count history n < td.minimum_responses_per_submind) :
    td.should_terminate history current_round expected = (false, "") :=
  should_terminate_of_gate_failure td history current_round expected
    (gate_fails_of_under_count td history expected n hn hcount)

/-- Witness for C2: persona "Beta" never spoke, the round counter (5) is past
the cap (3), and the detector still returns `(false, "")`. -/
theorem minimum_participation_gate_dominates_witness :
    ("Beta" ∈ ["Alpha", "Beta"] ∧ response_count gateWitnessHistory "Beta" = 0 ∧
      3 ≤ (5 : Nat)) ∧
    fixtureDetector.should_terminate gateWitnessHistory 5 ["Alpha", "Beta"] = (false, "") :=
  ⟨⟨by decide, by decide, by decide⟩,
   minimum_participation_gate_dominates fixtureDetector gateWitnessHistory 5
     ["Alpha", "Beta"] "Beta" (by decide) (Or.inl (by decide))⟩

/-- C10: the completion scan inspects the last `min(5, len)` messages without
excluding User or System speakers, so once the gate passes and the cap has not
been reached, a round-0 user prompt containing a completion keyword inside the
window makes `shouldTerminate` stop with the completion-signals reason. -/
theorem user_wording_can_terminate (td : TerminationDetector)
    (history : List Message) (current_round : Nat) (expected : List String)
    (hdet : td.detect_consensus = true)
    (hgate : td.check_minimum_responses history expected = true)
    (hcap : current_round < td.max_rounds)
    (hmsg : ∃ m ∈ recent_messages history, m.speaker = "User" ∧ m.round = 0 ∧
      ∃ kw ∈ completion_keywords, containsSub kw.data (lowerList m.content.data) = true) :
    td.should_terminate history current_round expected =
      (true, "Completion signals detected in discussion") := by
  obtain ⟨m, hmem, _, _, kw, hkw, hsub⟩ := hmsg
  have hne : history.isEmpty = false := by
    cases hh : history with
    | nil => rw [hh] at hmem; simp [recent_messages] at hmem
    | cons a l => rfl
  have hcomp : detect_completion_signals history = true := by
    unfold detect_completion_signals
    rw [hne]
    simp only [Bool.false_eq_true, if_false, List.any_eq_true]
    exact ⟨m, hmem, ⟨kw, hkw, hsub⟩⟩
  unfold TerminationDetector.should_terminate
  rw [hgate, hdet, hcomp]
  simp [Nat.not_le.mpr hcap]

/-- Witness for C10: the user's own "Overall, …" prompt terminates the
discussion after round 1 of 3 once both personas have spoken. -/
theorem user_wording_can_terminate_witness :
    (fixtureDetector.detect_consensus = true ∧
      fixtureDetector.check_minimum_responses promptKeywordHistory ["Alpha", "Beta"] = true ∧
      1 < fixtureDetector.max_rounds ∧
      (∃ m ∈ recent_messages promptKeywordHistory, m.speaker = "User" ∧ m.round = 0 ∧
        ∃ kw ∈ completion_keywords, containsSub kw.data (lowerList m.content.data) = true)) ∧
    fixtureDetector.should_terminate promptKeywordHistory 1 ["Alpha", "Beta"] =
      (true, "Completion signals detected in discussion") :=
  ⟨⟨by decide, by decide, by decide, by decide⟩,
   user_wording_can_terminate fixtureDetector promptKeywordHistory 1 ["Alpha", "Beta"]
     (by decide) (by decide) (by decide) (by decide)⟩

/-- C9: the backend adapter's post-processing maps the raw output
`"  [Strategic]: We should proceed. [/INST] ignore this"` to exactly
`"We should proceed."`. -/
theorem backend_cleanup_scenario :
    clean_response "  [Strategic]: We should proceed. [/INST] ignore this" =
      "We should proceed." := by
  decide

/-- C4: with candidate models `[A, B]`, a rate limit on `A` followed by
success on `B` yields exactly one returned message tagged `model = B`, and the
persona's `current_model` becomes `B`: fallback models are tried strictly in
list order on rate-limit failures. -/
theorem fallback_model_order (s : Submind) (backend : Backend)
    (history : List Message) (ts A B eA tB : String)
    (hmodels : s.models = [A, B])
    (hA : backend A (s.build_messages history) = .error (.rateLimit eA))
    (hB : backend B (s.build_messages history) = .ok tB) :
    s.generate_response backend history ts =
      .ok ({ speaker := s.name, content := tB, timestamp := ts,
             round := s.response_count + 1, model := some B, role := s.role },
           { s with current_model := B, response_count := s.response_count + 1 }) := by
  unfold Submind.generate_response
  rw [hmodels]
  simp [tryModels, hA, hB]

/-- Witness for C4: the two-model persona falls back from the rate-limited
"model-a" to "model-b". -/
theorem fallback_model_order_witness :
    (twoModelPersona.models = ["model-a", "model-b"] ∧
      fallbackBackend "model-a" (twoModelPersona.build_messages [userMessage "p" "t"]) =
        .error (.rateLimit "429 too many requests") ∧
      fallbackBackend "model-b" (twoModelPersona.build_messages [userMessage "p" "t"]) =
        .ok "fallback answer") ∧
    twoModelPersona.generate_response fallbackBackend [userMessage "p" "t"] "t" =
      .ok ({ speaker := twoModelPersona.name, content := "fallback answer",
             timestamp := "t", round := twoModelPersona.response_count + 1,
             model := some "model-b", role := twoModelPersona.role },
           { twoModelPersona with
              current_model := "model-b",
              response_count := twoModelPersona.response_count + 1 }) :=
  ⟨⟨by decide, by decide, by decide⟩,
   fallback_model_order twoModelPersona fallbackBackend [userMessage "p" "t"] "t"
     "model-a" "model-b" "429 too many requests" "fallback answer"
     (by decide) (by decide) (by decide)⟩

/-- C5: a non-rate-limit failure on the first candidate aborts immediately —
the result is the wrapped `BackendError` for every possible backend behaviour
on the remaining candidates, so the second candidate is never invoked — and a
rate limit on the final candidate surfaces as `AllModelsExhausted` wrapping
the last error. -/
theorem non_rate_limit_never_falls_back :
    (∀ (s : Submind) (backend : Backend) (history : List Message)
       (ts A e : String) (rest : List String),
       s.models = A :: rest →
       backend A (s.build_messages history) = .error (.failure e) →
       s.generate_response backend history ts =
         .error (.backendError ("Failed to generate response for " ++ s.name ++ ": " ++ e))) ∧
    (∀ (s : Submind) (backend : Backend) (history : List Message)
       (ts A B e1 e2 : String),
       s.models = [A, B] →
       backend A (s.build_messages history) = .error (.rateLimit e1) →
       backend B (s.build_messages history) = .error (.rateLimit e2) →
       s.generate_response backend history ts =
         .error (.allModelsExhausted
           ("All models exhausted for " ++ s.name ++ ". Last error: " ++ e2))) := by
  constructor
  · intro s backend history ts A e rest hmodels hA
    unfold Submind.generate_response
    rw [hmodels]
    simp [tryModels, hA]
  · intro s backend history ts A B e1 e2 hmodels hA hB
    unfold Submind.generate_response
    rw [hmodels]
    simp [tryModels, hA, hB]

/-- Witness for C5: a `BackendError` on "model-a" aborts even though
"model-b" would have answered, and rate limits on both models surface as the
exhaustion error wrapping the final rate-limit message. -/
theorem non_rate_limit_never_falls_back_witness :
    ((twoModelPersona.models = ["model-a", "model-b"] ∧
       failingBackend "model-a" (twoModelPersona.build_messages [userMessage "p" "t"]) =
         .error (.failure "boom")) ∧
      twoModelPersona.generate_response failingBackend [userMessage "p" "t"] "t" =
        .error (.backendError "Failed to generate response for Alpha: boom")) ∧
    ((rateLimitedBackend "model-a" (twoModelPersona.build_messages [userMessage "p" "t"]) =
        .error (.rateLimit "quota hit") ∧
      rateLimitedBackend "model-b" (twoModelPersona.build_messages [userMessage "p" "t"]) =
        .error (.rateLimit "quota hit")) ∧
      twoModelPersona.generate_response rateLimitedBackend [userMessage "p" "t"] "t" =
        .error (.allModelsExhausted "All models exhausted for Alpha. Last error: quota hit")) :=
  ⟨⟨⟨by decide, by decide⟩,
    non_rate_limit_never_falls_back.1 twoModelPersona failingBackend
      [userMessage "p" "t"] "t" "model-a" "boom" ["model-b"] (by decide) (by decide)⟩,
   ⟨⟨by decide, by decide⟩,
    non_rate_limit_never_falls_back.2 twoModelPersona rateLimitedBackend
      [userMessage "p" "t"] "t" "model-a" "model-b" "quota hit" "quota hit"
      (by decide) (by decide) (by decide)⟩⟩

/-- C6: in streaming mode a raising persona turn emits an error event, still
performs the pacing sleep, and the round continues with the next persona on
the unchanged history: one failing turn never aborts the streamed round. -/
theorem streaming_turn_failure_continues (backend : Backend) (ts : String)
    (d : ℚ) (round : Nat) (s : Submind) (rest : List Submind)
    (history : List Message) (e : SubmindError)
    (herr : s.generate_response backend history ts = .error e) :
    streamTurns backend ts d round (s :: rest) history =
      (StreamAction.emit (.submind_start s.name round) ::
         StreamAction.emit (.errorEvent s.name e.message) ::
         (sleepActions d ++ (streamTurns backend ts d round rest history).1),
       s :: (streamTurns backend ts d round rest history).2.1,
       (streamTurns backend ts d round rest history).2.2) := by
  rcases hrec : streamTurns backend ts d round rest history with ⟨acts, subs, hist⟩
  simp [streamTurns, herr, hrec]

/-- Witness for C6: with a backend that always fails, the first persona's
turn produces an error event followed by the pacing sleep and the second
persona's turn. -/
theorem streaming_turn_failure_continues_witness :
    ((mkPersona "Alpha").generate_response failingBackend [userMessage "p" "t"] "t" =
       .error (.backendError "Failed to generate response for Alpha: boom")) ∧
    streamTurns failingBackend "t" 1 1 [mkPersona "Alpha", mkPersona "Beta"]
        [userMessage "p" "t"] =
      (StreamAction.emit (.submind_start (mkPersona "Alpha").name 1) ::
         StreamAction.emit (.errorEvent (mkPersona "Alpha").name
           (SubmindError.backendError "Failed to generate response for Alpha: boom").message) ::
         (sleepActions 1 ++
           (streamTurns failingBackend "t" 1 1 [mkPersona "Beta"] [userMessage "p" "t"]).1),
       mkPersona "Alpha" ::
         (streamTurns failingBackend "t" 1 1 [mkPersona "Beta"] [userMessage "p" "t"]).2.1,
       (streamTurns failingBackend "t" 1 1 [mkPersona "Beta"] [userMessage "p" "t"]).2.2) :=
  ⟨by decide,
   streaming_turn_failure_continues failingBackend "t" 1 1 (mkPersona "Alpha")
     [mkPersona "Beta"] [userMessage "p" "t"]
     (.backendError "Failed to generate response for Alpha: boom") (by decide)⟩

/-- Counterexample for C7: invoking the streaming entry operation on an
instance whose transcript is already non-empty does not fail — it emits the
start and user-message events and appends to the retained transcript (here the
old user prompt is still the head of the final history). -/
theorem stream_no_already_started_guard_counterexample :
    streamGuardConversation.history ≠ [] ∧
    (streamGuardConversation.stream_conversation okBackend "t" 1 "second prompt").1.take 2 =
      [StreamAction.emit (.start "t"),
       StreamAction.emit (.user_message (userMessage "second prompt" "t"))] ∧
    streamFinalHistory (streamGuardConversation.stream_conversation okBackend "t" 1 "second prompt") =
      some [userMessage "first prompt" "t", userMessage "second prompt" "t",
            { personaMsg "Alpha" "fine" 1 with model := some "model-a" },
            { personaMsg "Beta" "fine" 1 with model := some "model-a" },
            terminationMessage "Maximum rounds (1) reached" 1 "t"] := by
  refine ⟨by decide, by decide, ?_⟩
  decide

/-- C7 amended: only the batch orchestrator guards against reuse — `start` on
a non-empty transcript fails with the already-started error and, being a pure
guard taken before any other step, appends nothing; the streaming variant
performs no such check and begins emitting events regardless of the existing
transcript. -/
theorem already_started_guard_batch_only :
    (∀ (c : Conversation) (backend : Backend) (ts : String) (fuel : Nat)
       (prompt : String), c.history ≠ [] →
       c.start backend ts fuel prompt = .error .alreadyStarted) ∧
    (∀ (c : Conversation) (backend : Backend) (ts : String) (fuel : Nat)
       (prompt : String),
       (c.stream_conversation backend ts fuel prompt).1.take 2 =
         [StreamAction.emit (.start ts),
          StreamAction.emit (.user_message (userMessage prompt ts))]) := by
  constructor
  · intro c backend ts fuel prompt hne
    unfold Conversation.start
    have : c.history.isEmpty = false := by
      cases hh : c.history with
      | nil => exact absurd hh hne
      | cons a l => rfl
    simp [this]
  · intro c backend ts fuel prompt
    unfold Conversation.stream_conversation
    cases hsd : (streamDiscussion backend ts fuel
        { c with
          user_prompt := some prompt,
          history := c.history ++ [userMessage prompt ts] }).2 <;>
      simp [hsd]

/-- Witness for C7 (amended): the batch orchestrator refuses the non-empty
fixture transcript while the streaming orchestrator starts streaming on it. -/
theorem already_started_guard_batch_only_witness :
    (streamGuardConversation.history ≠ [] ∧
      streamGuardConversation.start okBackend "t" 1 "second prompt" =
        .error .alreadyStarted) ∧
    (streamGuardConversation.stream_conversation okBackend "t" 1 "second prompt").1.take 2 =
      [StreamAction.emit (.start "t"),
       StreamAction.emit (.user_message (userMessage "second prompt" "t"))] :=
  ⟨⟨by decide,
    already_started_guard_batch_only.1 streamGuardConversation okBackend "t" 1
      "second prompt" (by decide)⟩,
   already_started_guard_batch_only.2 streamGuardConversation okBackend "t" 1
     "second prompt"⟩

/-! Helper lemmas about successful turns and response counts, used by the
orchestrator-level theorems. -/

/-- A successful `generate_response` stamps the persona's name and bumped
response counter into the message and the updated persona state. -/
theorem generate_response_ok_facts {s s' : Submind} {backend : Backend}
    {history : List Message} {ts : String} {m : Message}
    (h : s.generate_response backend history ts = .ok (m, s')) :
    m.speaker = s.name ∧ m.round = s.response_count + 1 ∧ s'.name = s.name ∧
      s'.response_count = s.response_count + 1 ∧ s'.models = s.models := by
  simp only [Submind.generate_response] at h
  cases htry : tryModels s backend (s.build_messages history) s.models none with
  | error e => rw [htry] at h; simp at h
  | ok p =>
    rw [htry] at h
    obtain ⟨model, content⟩ := p
    simp only [Except.ok.injEq, Prod.mk.injEq] at h
    obtain ⟨hm, hs⟩ := h
    subst hm
    subst hs
    simp

/-- A successful round of turns preserves the persona names and model lists
and appends one message per persona, spoken under that persona's name. -/
theorem runTurns_ok_facts (backend : Backend) (ts : String) :
    ∀ (subs : List Submind) (history : List Message) (subs' : List Submind)
      (msgs : List Message),
      runTurns backend ts subs history = .ok (subs', msgs) →
      subs'.map (·.name) = subs.map (·.name) ∧
      msgs.map (·.speaker) = subs.map (·.name) ∧
      msgs.length = subs.length ∧
      subs'.map (·.models) = subs.map (·.models) := by
  intro subs
  induction subs with
  | nil =>
    intro history subs' msgs hrun
    unfold runTurns at hrun
    simp only [Except.ok.injEq, Prod.mk.injEq] at hrun
    obtain ⟨h1, h2⟩ := hrun
    subst h1
    subst h2
    simp
  | cons s rest ih =>
    intro history subs' msgs hrun
    unfold runTurns at hrun
    cases hgen : s.generate_response backend history ts with
    | error e => rw [hgen] at hrun; simp at hrun
    | ok p =>
      obtain ⟨m, s1⟩ := p
      rw [hgen] at hrun
      dsimp only at hrun
      cases hrest : runTurns backend ts rest (history ++ [m]) with
      | error e => rw [hrest] at hrun; simp at hrun
      | ok q =>
        obtain ⟨rest', msgs'⟩ := q
        rw [hrest] at hrun
        simp only [Except.ok.injEq, Prod.mk.injEq] at hrun
        obtain ⟨h1, h2⟩ := hrun
        subst h1
        subst h2
        obtain ⟨hspk, _, hname, _, hmodels⟩ := generate_response_ok_facts hgen
        obtain ⟨ihn, ihs, ihl, ihm⟩ := ih (history ++ [m]) rest' msgs' hrest
        simp [hspk, hname, hmodels, ihn, ihs, ihl, ihm]

/-- Response counts add across transcript concatenation. -/
theorem response_count_append (h1 h2 : List Message) (n : String) :
    response_count (h1 ++ h2) n = response_count h1 n + response_count h2 n := by
  unfold response_count countedMessages
  rw [List.filter_append, List.filter_append, List.length_append]

/-- Cons-step evaluation of `response_count`. -/
theorem response_count_cons (m : Message) (rest : List Message) (n : String) :
    response_count (m :: rest) n =
      (if isCountedSpeaker m.speaker && m.speaker == n then 1 else 0) +
        response_count rest n := by
  unfold response_count countedMessages
  cases hc : isCountedSpeaker m.speaker <;> cases he : m.speaker == n <;>
    simp [List.filter_cons, hc, he, Nat.add_comm]

/-- A name absent from the speakers of a message list has count zero. -/
theorem response_count_zero_of_not_mem (msgs : List Message) (n : String)
    (h : n ∉ msgs.map (·.speaker)) : response_count msgs n = 0 := by
  induction msgs with
  | nil => rfl
  | cons m rest ih =>
    simp only [List.map_cons, List.mem_cons, not_or] at h
    rw [response_count_cons]
    have he : (m.speaker == n) = false := by
      rw [beq_eq_false_iff_ne]
      exact fun hh => h.1 hh.symm
    simp [he, ih h.2]

/-- The round-0 user message contributes nothing to any response count. -/
theorem response_count_user_zero (prompt ts n : String) :
    response_count [userMessage prompt ts] n = 0 := by
  rw [response_count_cons]
  simp [userMessage, isCountedSpeaker, response_count, countedMessages]

/-- A message list whose speakers are exactly a duplicate-free name list
contributes exactly one response to each of those names. -/
theorem response_count_of_speakers_nodup (msgs : List Message) (names : List String)
    (n : String) (hmap : msgs.map (·.speaker) = names) (hnd : names.Nodup)
    (hmem : n ∈ names) (hn : isCountedSpeaker n = true) :
    response_count msgs n = 1 := by
  induction msgs generalizing names with
  | nil =>
    subst hmap
    simp at hmem
  | cons m rest ih =>
    cases names with
    | nil => simp at hmap
    | cons a as =>
      simp only [List.map_cons, List.cons.injEq] at hmap
      obtain ⟨ha, hrest⟩ := hmap
      rw [response_count_cons]
      rw [List.nodup_cons] at hnd
      rcases List.mem_cons.mp hmem with rfl | hmem'
      · have he : (m.speaker == n) = true := by
          rw [beq_iff_eq]
          exact ha
        have hz : response_count rest n = 0 := by
          apply response_count_zero_of_not_mem
          rw [hrest]
          exact hnd.1
        have hcm : isCountedSpeaker m.speaker = true := by rw [ha]; exact hn
        simp [he, hcm, hz]
      · have hanen : a ≠ n := fun hh => hnd.1 (hh ▸ hmem')
        have he : (m.speaker == n) = false := by
          rw [beq_eq_false_iff_ne, ha]
          exact hanen
        simp only [he, Bool.and_false, Bool.false_eq_true, if_false, Nat.zero_add]
        exact ih as hrest hnd.2 hmem'

/-- The participation gate passes when every expected name has a positive
count meeting the minimum. -/
theorem gate_passes (td : TerminationDetector) (history : List Message)
    (names : List String) (hne : names ≠ [])
    (hall : ∀ n ∈ names, 0 < response_count history n ∧
      td.minimum_responses_per_submind ≤ response_count history n) :
    td.check_minimum_responses history names = true := by
  obtain ⟨n0, hn0⟩ : ∃ n, n ∈ names := by
    cases names with
    | nil => exact absurd rfl hne
    | cons a l => exact ⟨a, List.mem_cons_self a l⟩
  have hpos := (hall n0 hn0).1
  have hnonempty : (countedMessages history).isEmpty = false := by
    unfold response_count at hpos
    cases hcm : countedMessages history with
    | nil => rw [hcm] at hpos; simp at hpos
    | cons x xs => rfl
  have hne' : names.isEmpty = false := by
    cases names with
    | nil => exact absurd rfl hne
    | cons a l => rfl
  unfold TerminationDetector.check_minimum_responses
  rw [hnonempty, hne']
  simp only [Bool.false_eq_true, if_false, Bool.not_false, if_true, List.all_eq_true]
  intro n hn
  have h := hall n hn
  simp [h.1, h.2]

/-- Once the gate passes and the cap is reached, `should_terminate` fires
with the max-rounds reason. -/
theorem should_terminate_at_cap (td : TerminationDetector) (history : List Message)
    (r : Nat) (names : List String)
    (hgate : td.check_minimum_responses history names = true)
    (hcap : td.max_rounds ≤ r) :
    td.should_terminate history r names =
      (true, "Maximum rounds (" ++ toString td.max_rounds ++ ") reached") := by
  unfold TerminationDetector.should_terminate
  rw [hgate]
  simp [hcap]

/-- With the gate passed, the cap not reached, and detection disabled,
`should_terminate` declines. -/
theorem should_terminate_continue_no_detect (td : TerminationDetector)
    (history : List Message) (r : Nat) (names : List String)
    (hgate : td.check_minimum_responses history names = true)
    (hr : r < td.max_rounds) (hdc : td.detect_consensus = false) :
    td.should_terminate history r names = (false, "") := by
  unfold TerminationDetector.should_terminate
  rw [hgate, hdc]
  simp [Nat.not_le.mpr hr]

/-- A declined round means the gate failed or the cap was not yet reached. -/
theorem not_terminated_cases (td : TerminationDetector) (history : List Message)
    (r : Nat) (names : List String)
    (hfalse : (td.should_terminate history r names).1 = false) :
    td.check_minimum_responses history names = false ∨ r < td.max_rounds := by
  by_cases hg : td.check_minimum_responses history names = true
  · right
    by_contra hge
    push_neg at hge
    rw [should_terminate_at_cap td history r names hg hge] at hfalse
    simp at hfalse
  · left
    exact Bool.eq_false_iff.mpr (fun hh => hg hh)

/-- One unrolling of the discussion loop, given the round's turn results and
the detector's verdict. -/
theorem runDiscussion_step (backend : Backend) (ts : String) (fuel : Nat)
    (c : Conversation) (subs' : List Submind) (msgs : List Message)
    (flag : Bool) (reason : String)
    (hturn : runTurns backend ts c.subminds c.history = .ok (subs', msgs))
    (hst : c.termination_detector.should_terminate (c.history ++ msgs)
      (c.current_round + 1) (subs'.map (·.name)) = (flag, reason)) :
    runDiscussion backend ts (fuel + 1) c =
      if flag then
        .ok (some { c with
          subminds := subs',
          history := (c.history ++ msgs) ++
            [terminationMessage reason (c.current_round + 1) ts],
          current_round := c.current_round + 1 })
      else
        runDiscussion backend ts fuel { c with
          subminds := subs',
          history := c.history ++ msgs,
          current_round := c.current_round + 1 } := by
  simp only [runDiscussion]
  rw [hturn]
  dsimp only
  rw [hst]
  cases flag <;> simp

/-- The discussion loop never halts with a round counter above
`max maxRounds minimumResponses (currentRound + 1)`, provided the persona
names are duplicate-free non-sentinel names whose current counts equal the
round counter. -/
theorem runDiscussion_round_bound (backend : Backend) (ts : String) :
    ∀ (fuel : Nat) (c c' : Conversation),
      c.subminds.map (·.name) ≠ [] →
      (c.subminds.map (·.name)).Nodup →
      (∀ n ∈ c.subminds.map (·.name), isCountedSpeaker n = true) →
      (∀ n ∈ c.subminds.map (·.name), response_count c.history n = c.current_round) →
      runDiscussion backend ts fuel c = .ok (some c') →
      c'.current_round ≤
        max (max c.termination_detector.max_rounds
                 c.termination_detector.minimum_responses_per_submind)
            (c.current_round + 1) := by
  intro fuel
  induction fuel with
  | zero =>
    intro c c' _ _ _ _ hrun
    simp [runDiscussion] at hrun
  | succ fuel ih =>
    intro c c' hne hnd hcs hinv hrun
    cases hturn : runTurns backend ts c.subminds c.history with
    | error e =>
      simp only [runDiscussion] at hrun
      rw [hturn] at hrun
      simp at hrun
    | ok p =>
      obtain ⟨subs', msgs⟩ := p
      obtain ⟨hnames, hspk, hlen, _⟩ :=
        runTurns_ok_facts backend ts c.subminds c.history subs' msgs hturn
      have hinv' : ∀ n ∈ c.subminds.map (·.name),
          response_count (c.history ++ msgs) n = c.current_round + 1 := by
        intro n hn
        rw [response_count_append, hinv n hn,
          response_count_of_speakers_nodup msgs (c.subminds.map (·.name)) n hspk hnd hn
            (hcs n hn)]
      rcases hst : c.termination_detector.should_terminate (c.history ++ msgs)
          (c.current_round + 1) (subs'.map (·.name)) with ⟨flag, reason⟩
      rw [runDiscussion_step backend ts fuel c subs' msgs flag reason hturn hst] at hrun
      cases flag with
      | true =>
        simp only [if_true, Except.ok.injEq, Option.some.injEq] at hrun
        rw [← hrun]
        exact le_max_right _ _
      | false =>
        simp only [Bool.false_eq_true, if_false] at hrun
        have hbound := ih _ c' (by rw [hnames]; exact hne) (by rw [hnames]; exact hnd)
          (by rw [hnames]; exact hcs) (by rw [hnames]; exact hinv') hrun
        have hfst : (c.termination_detector.should_terminate (c.history ++ msgs)
            (c.current_round + 1) (subs'.map (·.name))).1 = false := by
          rw [hst]
        have hsmall : c.current_round + 2 ≤
            max c.termination_detector.max_rounds
              c.termination_detector.minimum_responses_per_submind := by
          rcases not_terminated_cases _ _ _ _ hfst with hg | hlt
          · by_contra hbig
            push_neg at hbig
            have hmin : c.termination_detector.minimum_responses_per_submind ≤
                c.current_round + 1 := by
              have := le_max_right c.termination_detector.max_rounds
                c.termination_detector.minimum_responses_per_submind
              omega
            have : c.termination_detector.check_minimum_responses (c.history ++ msgs)
                (subs'.map (·.name)) = true := by
              apply gate_passes
              · rw [hnames]; exact hne
              · intro n hn
                rw [hnames] at hn
                rw [hinv' n hn]
                exact ⟨Nat.succ_pos _, hmin⟩
            rw [this] at hg
            simp at hg
          · have := le_max_left c.termination_detector.max_rounds
              c.termination_detector.minimum_responses_per_submind
            omega
        calc c'.current_round ≤ _ := hbound
          _ ≤ max (max c.termination_detector.max_rounds
                c.termination_detector.minimum_responses_per_submind)
              (c.current_round + 1) := by
            apply max_le
            · exact le_max_left _ _
            · exact le_trans hsmall (le_max_left _ _)

/-- Counterexample for C1: with `maxRounds = 1` but
`minimumResponsesPerSubmind = 2`, the gate short-circuits before the cap
check, so the discussion halts only at round 2 — `currentRound` exceeds
`maxRounds`. -/
theorem max_rounds_exceeded_counterexample :
    c1Detector.max_rounds = 1 ∧
    finalRound (c1Conversation.start okBackend "t" 5 "p") = some 2 := by
  constructor
  · rfl
  · decide

/-- C1 amended: when a discussion started on a fresh transcript halts
normally, `currentRound` never exceeds
`max maxRounds minimumResponsesPerSubmind` (and is at least bounded by 1 when
both are 0); `maxRounds` alone is a hard ceiling only when
`minimumResponsesPerSubmind ≤ maxRounds`, because the minimum-participation
gate runs before the cap check.  Hypotheses: at least one persona,
duplicate-free persona names, and no persona named User/System/Unknown. -/
theorem max_rounds_ceiling_amended (backend : Backend) (ts prompt : String)
    (fuel : Nat) (c : Conversation) (r : Nat)
    (hne : c.subminds.map (·.name) ≠ [])
    (hnd : (c.subminds.map (·.name)).Nodup)
    (hcs : ∀ n ∈ c.subminds.map (·.name), isCountedSpeaker n = true)
    (hr0 : c.current_round = 0)
    (hrun : finalRound (c.start backend ts fuel prompt) = some r) :
    r ≤ max (max c.termination_detector.max_rounds
             c.termination_detector.minimum_responses_per_submind) 1 := by
  unfold Conversation.start at hrun
  cases hh : c.history.isEmpty with
  | false => rw [hh] at hrun; simp [finalRound] at hrun
  | true =>
    rw [hh] at hrun
    dsimp only at hrun
    cases hd : runDiscussion backend ts fuel
        { c with
          user_prompt := some prompt,
          history := [userMessage prompt ts] } with
    | error e => rw [hd] at hrun; simp [finalRound] at hrun
    | ok o =>
      rw [hd] at hrun
      cases o with
      | none => simp [finalRound] at hrun
      | some c' =>
        simp only [Bool.not_true, Bool.false_eq_true, if_false, finalRound,
          Option.some.injEq] at hrun
        have hbound := runDiscussion_round_bound backend ts fuel
          { c with
            user_prompt := some prompt,
            history := [userMessage prompt ts] } c'
          hne hnd hcs
          (by
            intro n hn
            rw [show ({ c with
                user_prompt := some prompt,
                history := [userMessage prompt ts] } : Conversation).history =
              [userMessage prompt ts] from rfl]
            rw [response_count_user_zero]
            exact hr0.symm)
          hd
        rw [← hrun]
        refine le_trans hbound ?_
        dsimp only
        rw [hr0]

/-- Witness for C1 (amended): the counterexample configuration halts at round
2, which meets the amended bound `max (max 1 2) 1 = 2`. -/
theorem max_rounds_ceiling_amended_witness :
    (c1Conversation.subminds.map (·.name) ≠ [] ∧
      (c1Conversation.subminds.map (·.name)).Nodup ∧
      (∀ n ∈ c1Conversation.subminds.map (·.name), isCountedSpeaker n = true) ∧
      c1Conversation.current_round = 0 ∧
      finalRound (c1Conversation.start okBackend "t" 5 "p") = some 2) ∧
    2 ≤ max (max c1Conversation.termination_detector.max_rounds
          c1Conversation.termination_detector.minimum_responses_per_submind) 1 :=
  ⟨⟨by decide, by decide, by decide, rfl, by decide⟩,
   max_rounds_ceiling_amended okBackend "t" "p" 5 c1Conversation 2
     (by decide) (by decide) (by decide) rfl (by decide)⟩

/-- When every persona's `response_count` equals `k` at the start of round
`k + 1`, the source turn loop already stamps `k + 1` into every message, so it
coincides with the round-stamping loop; and every persona leaves the round
with `response_count = k + 1`. -/
theorem runTurns_roundStamped_eq (backend : Backend) (ts : String) :
    ∀ (subs : List Submind) (history : List Message) (k : Nat),
      (∀ s ∈ subs, s.response_count = k) →
      runTurnsRoundStamped backend ts (k + 1) subs history =
        runTurns backend ts subs history ∧
      ∀ subs' msgs, runTurns backend ts subs history = .ok (subs', msgs) →
        ∀ s' ∈ subs', s'.response_count = k + 1 := by
  intro subs
  induction subs with
  | nil =>
    intro history k hk
    refine ⟨rfl, ?_⟩
    intro subs' msgs hrun
    unfold runTurns at hrun
    simp only [Except.ok.injEq, Prod.mk.injEq] at hrun
    obtain ⟨h1, _⟩ := hrun
    subst h1
    intro s' hs'
    simp at hs'
  | cons s rest ih =>
    intro history k hk
    have hsk : s.response_count = k := hk s (List.mem_cons_self s rest)
    have hkrest : ∀ x ∈ rest, x.response_count = k :=
      fun x hx => hk x (List.mem_cons_of_mem s hx)
    cases hgen : s.generate_response backend history ts with
    | error e =>
      constructor
      · unfold runTurnsRoundStamped runTurns
        rw [hgen]
      · intro subs' msgs hrun
        unfold runTurns at hrun
        rw [hgen] at hrun
        simp at hrun
    | ok p =>
      obtain ⟨m, s1⟩ := p
      obtain ⟨_, hrnd, _, hcnt, _⟩ := generate_response_ok_facts hgen
      have hm : ({ m with round := k + 1 } : Message) = m := by
        have hmr : m.round = k + 1 := by rw [hrnd, hsk]
        cases m
        simp_all
      obtain ⟨ihEq, ihCnt⟩ := ih (history ++ [m]) k hkrest
      constructor
      · unfold runTurnsRoundStamped runTurns
        rw [hgen]
        dsimp only
        rw [hm, ihEq]
      · intro subs' msgs hrun
        unfold runTurns at hrun
        rw [hgen] at hrun
        dsimp only at hrun
        cases hr2 : runTurns backend ts rest (history ++ [m]) with
        | error e => rw [hr2] at hrun; simp at hrun
        | ok q =>
          obtain ⟨rest', msgs'⟩ := q
          rw [hr2] at hrun
          simp only [Except.ok.injEq, Prod.mk.injEq] at hrun
          obtain ⟨h1, _⟩ := hrun
          subst h1
          intro s' hs'
          rcases List.mem_cons.mp hs' with rfl | hmem
          · rw [hcnt, hsk]
          · exact ihCnt rest' msgs' hr2 s' hmem

/-- C8: for a discussion in which every persona's `response_count` equals the
orchestrator's round counter (as holds from a fresh start), the source
orchestrator is extensionally equal to the round-stamping orchestrator
described by the spec, so every appended persona message's `round` field
equals the orchestrator's discussion round counter at the time of its
generation. -/
theorem persona_round_equals_discussion_round (backend : Backend) (ts : String) :
    ∀ (fuel : Nat) (c : Conversation),
      (∀ s ∈ c.subminds, s.response_count = c.current_round) →
      runDiscussionRoundStamped backend ts fuel c = runDiscussion backend ts fuel c := by
  intro fuel
  induction fuel with
  | zero => intro c _; rfl
  | succ fuel ih =>
    intro c hc
    obtain ⟨heq, hcnt⟩ :=
      runTurns_roundStamped_eq backend ts c.subminds c.history c.current_round hc
    simp only [runDiscussion, runDiscussionRoundStamped]
    rw [heq]
    cases hturn : runTurns backend ts c.subminds c.history with
    | error e => rfl
    | ok p =>
      obtain ⟨subs', msgs⟩ := p
      dsimp only
      rcases hst : c.termination_detector.should_terminate (c.history ++ msgs)
          (c.current_round + 1) (subs'.map (·.name)) with ⟨flag, reason⟩
      rw [hst]
      cases flag with
      | true => rfl
      | false =>
        dsimp only
        exact ih _ (fun s' hs' => hcnt subs' msgs hturn s' hs')

/-- Witness for C8: a fresh three-persona discussion (all counters 0) runs
identically under the source and the round-stamping orchestrators. -/
theorem persona_round_equals_discussion_round_witness :
    (∀ s ∈ scenarioConversation.subminds,
        s.response_count = scenarioConversation.current_round) ∧
    runDiscussionRoundStamped okBackend "t" 3 scenarioConversation =
      runDiscussion okBackend "t" 3 scenarioConversation :=
  ⟨by decide,
   persona_round_equals_discussion_round okBackend "t" 3 scenarioConversation (by decide)⟩

/-- Personas keep non-empty model lists across a round whose turn loop
preserved the model-list map. -/
theorem models_nonempty_of_map_eq {subs subs0 : List Submind}
    (hmap : subs.map (·.models) = subs0.map (·.models))
    (h0 : ∀ s ∈ subs0, s.models ≠ []) : ∀ s ∈ subs, s.models ≠ [] := by
  intro s hs
  have hmem : s.models ∈ subs.map (·.models) := List.mem_map_of_mem _ hs
  rw [hmap] at hmem
  obtain ⟨s0, hs0, he⟩ := List.mem_map.mp hmem
  rw [← he]
  exact h0 s0 hs0

/-- An always-succeeding backend makes every persona turn succeed. -/
theorem generate_response_total (s : Submind) (backend : Backend)
    (history : List Message) (ts : String)
    (hb : ∀ model msgs, ∃ t, backend model msgs = .ok t)
    (hm : s.models ≠ []) :
    ∃ m s', s.generate_response backend history ts = .ok (m, s') := by
  cases hms : s.models with
  | nil => exact absurd hms hm
  | cons model rest =>
    obtain ⟨t, ht⟩ := hb model (s.build_messages history)
    refine ⟨{ speaker := s.name, content := t, timestamp := ts,
              round := s.response_count + 1, model := some model, role := s.role },
            { s with current_model := model, response_count := s.response_count + 1 }, ?_⟩
    simp only [Submind.generate_response]
    rw [hms]
    simp [tryModels, ht]

/-- An always-succeeding backend makes every round of turns succeed. -/
theorem runTurns_total (backend : Backend) (ts : String)
    (hb : ∀ model msgs, ∃ t, backend model msgs = .ok t) :
    ∀ (subs : List Submind) (history : List Message),
      (∀ s ∈ subs, s.models ≠ []) →
      ∃ subs' msgs, runTurns backend ts subs history = .ok (subs', msgs) := by
  intro subs
  induction subs with
  | nil => intro history _; exact ⟨[], [], rfl⟩
  | cons s rest ih =>
    intro history hmods
    obtain ⟨m, s1, hgen⟩ := generate_response_total s backend history ts hb
      (hmods s (List.mem_cons_self s rest))
    obtain ⟨rest', msgs', hrest⟩ := ih (history ++ [m])
      (fun x hx => hmods x (List.mem_cons_of_mem s hx))
    refine ⟨s1 :: rest', m :: msgs', ?_⟩
    unfold runTurns
    rw [hgen]
    dsimp only
    rw [hrest]

/-- C3: three personas, `maxRounds = 2`, consensus detection off, minimum
responses 1, every persona turn succeeding — `start` halts after exactly 2
rounds with a transcript of 8 messages (1 user + 3·2 personas + 1 system),
and the final System message carries the reason "Maximum rounds (2)
reached". -/
theorem three_persona_two_round_scenario (backend : Backend)
    (hb : ∀ model msgs, ∃ t, backend model msgs = .ok t)
    (fuel : Nat) (hfuel : 2 ≤ fuel) :
    ∃ h, finalHistory (scenarioConversation.start backend "t" fuel "prompt") = some h ∧
      finalRound (scenarioConversation.start backend "t" fuel "prompt") = some 2 ∧
      h.length = 8 ∧
      h.getLast? = some (terminationMessage "Maximum rounds (2) reached" 2 "t") := by
  obtain ⟨k, rfl⟩ : ∃ k, fuel = k + 1 + 1 := ⟨fuel - 2, by omega⟩
  have hcs : ∀ n ∈ scenarioConversation.subminds.map (·.name),
      isCountedSpeaker n = true := by decide
  have hnd : (scenarioConversation.subminds.map (·.name)).Nodup := by decide
  have hmods0 : ∀ s ∈ scenarioConversation.subminds, s.models ≠ [] := by decide
  -- Round 1
  obtain ⟨subs1, msgs1, hturn1⟩ := runTurns_total backend "t" hb
    scenarioConversation.subminds [userMessage "prompt" "t"] hmods0
  obtain ⟨hnames1, hspk1, hlen1, hmods1⟩ := runTurns_ok_facts backend "t"
    scenarioConversation.subminds [userMessage "prompt" "t"] subs1 msgs1 hturn1
  have hcount1 : ∀ n ∈ scenarioConversation.subminds.map (·.name),
      response_count ([userMessage "prompt" "t"] ++ msgs1) n = 1 := by
    intro n hn
    rw [response_count_append, response_count_user_zero,
      response_count_of_speakers_nodup msgs1 (scenarioConversation.subminds.map (·.name))
        n hspk1 hnd hn (hcs n hn)]
  have hgate1 : scenarioDetector.check_minimum_responses
      ([userMessage "prompt" "t"] ++ msgs1) (subs1.map (·.name)) = true := by
    apply gate_passes
    · rw [hnames1]; decide
    · intro n hn
      rw [hnames1] at hn
      rw [hcount1 n hn]
      exact ⟨by decide, by decide⟩
  have hst1 : scenarioDetector.should_terminate
      ([userMessage "prompt" "t"] ++ msgs1) 1 (subs1.map (·.name)) = (false, "") :=
    should_terminate_continue_no_detect scenarioDetector _ 1 _ hgate1
      (by decide) (by decide)
  have hd1 := runDiscussion_step backend "t" (k + 1)
    { scenarioConversation with
      user_prompt := some "prompt",
      history := [userMessage "prompt" "t"] } subs1 msgs1 false "" hturn1 hst1
  simp only [Bool.false_eq_true, if_false] at hd1
  -- Round 2
  obtain ⟨subs2, msgs2, hturn2⟩ := runTurns_total backend "t" hb subs1
    ([userMessage "prompt" "t"] ++ msgs1)
    (models_nonempty_of_map_eq hmods1 hmods0)
  obtain ⟨hnames2, hspk2, hlen2, _⟩ := runTurns_ok_facts backend "t"
    subs1 ([userMessage "prompt" "t"] ++ msgs1) subs2 msgs2 hturn2
  have hspk2' : msgs2.map (·.speaker) = scenarioConversation.subminds.map (·.name) := by
    rw [hspk2, hnames1]
  have hcount2 : ∀ n ∈ scenarioConversation.subminds.map (·.name),
      response_count (([userMessage "prompt" "t"] ++ msgs1) ++ msgs2) n = 2 := by
    intro n hn
    rw [response_count_append, hcount1 n hn,
      response_count_of_speakers_nodup msgs2 (scenarioConversation.subminds.map (·.name))
        n hspk2' hnd hn (hcs n hn)]
  have hgate2 : scenarioDetector.check_minimum_responses
      (([userMessage "prompt" "t"] ++ msgs1) ++ msgs2) (subs2.map (·.name)) = true := by
    apply gate_passes
    · rw [hnames2, hnames1]; decide
    · intro n hn
      rw [hnames2, hnames1] at hn
      rw [hcount2 n hn]
      exact ⟨by decide, by decide⟩
  have hstr : "Maximum rounds (" ++ toString scenarioDetector.max_rounds ++ ") reached" =
      "Maximum rounds (2) reached" := by decide
  have hst2 : scenarioDetector.should_terminate
      (([userMessage "prompt" "t"] ++ msgs1) ++ msgs2) 2 (subs2.map (·.name)) =
      (true, "Maximum rounds (2) reached") := by
    have h := should_terminate_at_cap scenarioDetector
      (([userMessage "prompt" "t"] ++ msgs1) ++ msgs2) 2 (subs2.map (·.name))
      hgate2 (by decide)
    rw [hstr] at h
    exact h
  have hd2 := runDiscussion_step backend "t" k
    { scenarioConversation with
      user_prompt := some "prompt",
      subminds := subs1,
      history := [userMessage "prompt" "t"] ++ msgs1,
      current_round := 1 } subs2 msgs2 true "Maximum rounds (2) reached" hturn2 hst2
  simp only [if_true] at hd2
  -- Assemble the run
  have hrun : runDiscussion backend "t" (k + 1 + 1)
      { scenarioConversation with
        user_prompt := some "prompt",
        history := [userMessage "prompt" "t"] } =
      .ok (some { scenarioConversation with
        user_prompt := some "prompt",
        subminds := subs2,
        history := (([userMessage "prompt" "t"] ++ msgs1) ++ msgs2) ++
          [terminationMessage "Maximum rounds (2) reached" 2 "t"],
        current_round := 2 }) := by
    rw [hd1]
    exact hd2
  have hstart : scenarioConversation.start backend "t" (k + 1 + 1) "prompt" =
      .ok (some { scenarioConversation with
        user_prompt := some "prompt",
        subminds := subs2,
        history := (([userMessage "prompt" "t"] ++ msgs1) ++ msgs2) ++
          [terminationMessage "Maximum rounds (2) reached" 2 "t"],
        current_round := 2 }) := by
    unfold Conversation.start
    rw [show scenarioConversation.history = [] from rfl]
    dsimp only
    rw [hrun]
    rfl
  have hl1 : subs1.length = 3 := by
    have h := congrArg List.length hnames1
    simpa using h
  refine ⟨(([userMessage "prompt" "t"] ++ msgs1) ++ msgs2) ++
      [terminationMessage "Maximum rounds (2) reached" 2 "t"], ?_, ?_, ?_, ?_⟩
  · rw [hstart]; rfl
  · rw [hstart]; rfl
  · simp only [List.length_append, List.length_cons, List.length_nil, hlen1, hlen2, hl1,
      show scenarioConversation.subminds.length = 3 from rfl]
  · exact List.getLast?_concat _

/-- Witness for C3: the always-succeeding fixture backend realises the
scenario at fuel 2. -/
theorem three_persona_two_round_scenario_witness :
    ((∀ model msgs, ∃ t, okBackend model msgs = .ok t) ∧ 2 ≤ (2 : Nat)) ∧
    (∃ h, finalHistory (scenarioConversation.start okBackend "t" 2 "prompt") = some h ∧
      finalRound (scenarioConversation.start okBackend "t" 2 "prompt") = some 2 ∧
      h.length = 8 ∧
      h.getLast? = some (terminationMessage "Maximum rounds (2) reached" 2 "t")) :=
  ⟨⟨fun _ _ => ⟨"fine", rfl⟩, by decide⟩,
   three_persona_two_round_scenario okBackend (fun _ _ => ⟨"fine", rfl⟩) 2 (by decide)⟩

end Hive
